import Mathlib

/-!
Verification of the in-memory customer store in `rust_warp_api`.

The service keeps a single shared `Vec<Customer>` behind a mutex
(`src/db.rs`); each handler (`src/handlers.rs`) acquires the lock, runs a
linear scan, and returns an HTTP status code (and for reads, a JSON body).
We embed the store as a `List Customer` and each handler as a pure function
from the arguments and the pre-state to its result together with the
post-state.  Strings and structural equality on them model Rust `String`
and its `PartialEq`.
-/

/-- A customer record, from `src/models.rs`: five string fields, `guid`
being the client-assigned identifier. -/
structure Customer where
  guid : String
  first_name : String
  last_name : String
  email : String
  address : String
deriving DecidableEq, Repr

/-- The HTTP status codes the handlers in `src/handlers.rs` return. -/
inductive StatusCode where
  | OK
  | CREATED
  | NO_CONTENT
  | BAD_REQUEST
  | NOT_FOUND
deriving DecidableEq, Repr

/-- The linear scan shared by the handlers: the first record whose `guid`
equals the argument, scanning front to back, as the `for customer in
customers.iter()` loops in `src/handlers.rs` do. -/
def find_customer (guid : String) : List Customer → Option Customer
  | [] => none
  | customer :: rest =>
      if customer.guid = guid then some customer else find_customer guid rest

/-- `list_customers` from `src/handlers.rs`: clones the vector under the
lock and replies with the clone; the store is not modified.  The first
component is the returned copy, the second the store after the call. -/
def list_customers (db : List Customer) : List Customer × List Customer :=
  (db, db)

/-- `create_customer` from `src/handlers.rs`: scan for a record with the
same `guid`; on a hit return `BAD_REQUEST` leaving the store alone,
otherwise push the new record at the end and return `CREATED`. -/
def create_customer (new_customer : Customer) (db : List Customer) :
    StatusCode × List Customer :=
  match find_customer new_customer.guid db with
  | some _ => (StatusCode.BAD_REQUEST, db)
  | none => (StatusCode.CREATED, db ++ [new_customer])

/-- `get_customer` from `src/handlers.rs`: scan for the first record with
the given `guid`; reply with its JSON on a hit, `NOT_FOUND` otherwise.
The store is not modified; the second component is the store after. -/
def get_customer (guid : String) (db : List Customer) :
    Option Customer × List Customer :=
  (find_customer guid db, db)

/-- `update_customer` from `src/handlers.rs`: iterate mutably; at the first
record whose `guid` equals the body's `guid`, overwrite it with the body
and return `OK` at once; if the loop finishes, return `NOT_FOUND`. -/
def update_customer (updated_customer : Customer) (db : List Customer) :
    StatusCode × List Customer :=
  match db with
  | [] => (StatusCode.NOT_FOUND, [])
  | customer :: rest =>
      if customer.guid = updated_customer.guid then
        (StatusCode.OK, updated_customer :: rest)
      else
        let r := update_customer updated_customer rest
        (r.1, customer :: r.2)

/-- `delete_customer` from `src/handlers.rs`: `retain` every record whose
`guid` differs from the argument, then compare the length with the length
before: `NO_CONTENT` if it shrank, `NOT_FOUND` otherwise. -/
def delete_customer (guid : String) (db : List Customer) :
    StatusCode × List Customer :=
  let customers := db.filter (fun customer => customer.guid != guid)
  if customers.length ≠ db.length then
    (StatusCode.NO_CONTENT, customers)
  else
    (StatusCode.NOT_FOUND, customers)

/-- The route layer for `PUT /customers/\x7bguid\x7d` (`src/routes.rs`)
extracts a `guid` segment from the path and the body record, and the
handler `update_customer` receives only the body and the store: the path
segment does not reach the matching logic. -/
def route_update_customer (path_guid : String) (updated_customer : Customer)
    (db : List Customer) : StatusCode × List Customer :=
  update_customer updated_customer db

/-- One request against the store: one of the five operations of
`src/handlers.rs` with its argument. -/
inductive Op where
  | list
  | create (new_customer : Customer)
  | readOne (guid : String)
  | update (updated_customer : Customer)
  | delete (guid : String)

/-- The store after one operation (the handler's post-state). -/
def applyOp (op : Op) (db : List Customer) : List Customer :=
  match op with
  | .list => (list_customers db).2
  | .create c => (create_customer c db).2
  | .readOne g => (get_customer g db).2
  | .update c => (update_customer c db).2
  | .delete g => (delete_customer g db).2

/-- The store after a sequence of operations, applied left to right. -/
def applyOps (ops : List Op) (db : List Customer) : List Customer :=
  ops.foldl (fun d op => applyOp op d) db

/-- The uniqueness invariant of `src/models.rs`: no two records in the
store share a `guid`. -/
def UniqueGuids (db : List Customer) : Prop :=
  (db.map Customer.guid).Nodup

instance (db : List Customer) : Decidable (UniqueGuids db) :=
  inferInstanceAs (Decidable (db.map Customer.guid).Nodup)

/-- An error from `File::open`, as `init_db` in `src/db.rs` can observe it:
the file may be missing, or opening may fail for another reason such as a
permission denial.  `init_db` matches all of them with one `Err(_)` arm. -/
inductive IoError where
  | notFound
  | permissionDenied
  | other
deriving DecidableEq, Repr

/-- Observable outcome of process initialization: either the process
starts with a store, or `unwrap` panics and the process never starts. -/
inductive InitResult where
  | started (customers : List Customer)
  | panicked
deriving DecidableEq, Repr

/-- `init_db` from `src/db.rs`: `File::open("./data/customers.json")` is
modelled as `file : Except IoError α` (an opened handle of abstract type
`α` or the open error) and `serde_json::from_reader` as
`from_reader : α → Option (List Customer)` (the decoded sequence, or
`none` on a parse failure).  On `Ok`, the code calls
`from_reader(json).unwrap()`: a parse failure panics, so initialization
ends in `panicked`; on `Err(_)` the store starts empty. -/
def init_db {α : Type} (file : Except IoError α)
    (from_reader : α → Option (List Customer)) : InitResult :=
  match file with
  | Except.ok json =>
      match from_reader json with
      | some customers => InitResult.started customers
      | none => InitResult.panicked
  | Except.error _ => InitResult.started []

/-! ## Lemmas about the linear scan -/

theorem find_customer_eq_none_iff (g : String) (db : List Customer) :
    find_customer g db = none ↔ ∀ c ∈ db, c.guid ≠ g := by
  induction db with
  | nil => simp [find_customer]
  | cons c rest ih =>
      by_cases h : c.guid = g
      · simp [find_customer, h]
      · simp [find_customer, h, ih]

theorem find_customer_append_of_first (g : String) (l₁ l₂ : List Customer)
    (c : Customer) (h₁ : ∀ x ∈ l₁, x.guid ≠ g) (h₂ : c.guid = g) :
    find_customer g (l₁ ++ c :: l₂) = some c := by
  induction l₁ with
  | nil => simp [find_customer, h₂]
  | cons x rest ih =>
      have hx : x.guid ≠ g := h₁ x (by simp)
      simp only [List.cons_append, find_customer, if_neg hx]
      exact ih (fun y hy => h₁ y (by simp [hy]))

/-! ## Lemmas about the individual handlers -/

theorem create_customer_of_absent (new_customer : Customer)
    (db : List Customer) (h : ∀ c ∈ db, c.guid ≠ new_customer.guid) :
    create_customer new_customer db =
      (StatusCode.CREATED, db ++ [new_customer]) := by
  unfold create_customer
  rw [(find_customer_eq_none_iff _ _).mpr h]

theorem create_customer_of_present (new_customer : Customer)
    (db : List Customer) (h : ∃ c ∈ db, c.guid = new_customer.guid) :
    create_customer new_customer db = (StatusCode.BAD_REQUEST, db) := by
  unfold create_customer
  cases hf : find_customer new_customer.guid db with
  | some c => rfl
  | none =>
      obtain ⟨c, hc, hg⟩ := h
      exact absurd hg ((find_customer_eq_none_iff _ _).mp hf c hc)

theorem update_customer_of_absent (u : Customer) (db : List Customer)
    (h : ∀ c ∈ db, c.guid ≠ u.guid) :
    update_customer u db = (StatusCode.NOT_FOUND, db) := by
  induction db with
  | nil => rfl
  | cons c rest ih =>
      have hc : c.guid ≠ u.guid := h c (by simp)
      simp only [update_customer, if_neg hc,
        ih (fun y hy => h y (by simp [hy]))]

theorem update_customer_of_first (u : Customer) (l₁ l₂ : List Customer)
    (c : Customer) (h₁ : ∀ x ∈ l₁, x.guid ≠ u.guid) (h₂ : c.guid = u.guid) :
    update_customer u (l₁ ++ c :: l₂) = (StatusCode.OK, l₁ ++ u :: l₂) := by
  induction l₁ with
  | nil => simp [update_customer, h₂]
  | cons x rest ih =>
      have hx : x.guid ≠ u.guid := h₁ x (by simp)
      simp [update_customer, hx, List.append_eq,
        ih (fun y hy => h₁ y (by simp [hy]))]

theorem update_customer_map_guid (u : Customer) (db : List Customer) :
    (update_customer u db).2.map Customer.guid = db.map Customer.guid := by
  induction db with
  | nil => rfl
  | cons c rest ih =>
      by_cases h : c.guid = u.guid
      · simp [update_customer, h]
      · simp [update_customer, h, ih]

theorem delete_customer_snd (g : String) (db : List Customer) :
    (delete_customer g db).2 = db.filter (fun c => c.guid != g) := by
  unfold delete_customer
  by_cases h : (db.filter (fun c => c.guid != g)).length ≠ db.length <;>
    simp [h]

theorem delete_customer_of_absent (g : String) (db : List Customer)
    (h : ∀ c ∈ db, c.guid ≠ g) :
    delete_customer g db = (StatusCode.NOT_FOUND, db) := by
  have hfil : db.filter (fun c => c.guid != g) = db :=
    List.filter_eq_self.mpr (fun c hc => by simpa using h c hc)
  unfold delete_customer
  simp [hfil]

theorem delete_customer_of_present (g : String) (db : List Customer)
    (h : ∃ c ∈ db, c.guid = g) :
    (delete_customer g db).1 = StatusCode.NO_CONTENT := by
  obtain ⟨c, hc, hg⟩ := h
  have hlt : (db.filter (fun c => c.guid != g)).length < db.length := by
    apply List.length_filter_lt_length_iff_exists.mpr
    exact ⟨c, hc, by simp [hg]⟩
  unfold delete_customer
  simp [Nat.ne_of_lt hlt]

/-! ## Preservation of the uniqueness invariant -/

theorem create_preserves_unique (c : Customer) (db : List Customer)
    (h : UniqueGuids db) : UniqueGuids ((create_customer c db).2) := by
  by_cases hp : ∃ x ∈ db, x.guid = c.guid
  · rw [create_customer_of_present c db hp]
    exact h
  · push_neg at hp
    rw [create_customer_of_absent c db hp]
    unfold UniqueGuids at h ⊢
    rw [List.map_append, List.nodup_append]
    refine ⟨h, by simp, ?_⟩
    intro a ha hb
    obtain ⟨x, hx, rfl⟩ := List.mem_map.mp ha
    rw [List.map_cons, List.map_nil, List.mem_singleton] at hb
    exact hp x hx hb

theorem update_preserves_unique (u : Customer) (db : List Customer)
    (h : UniqueGuids db) : UniqueGuids ((update_customer u db).2) := by
  unfold UniqueGuids at h ⊢
  rw [update_customer_map_guid]
  exact h

theorem delete_preserves_unique (g : String) (db : List Customer)
    (h : UniqueGuids db) : UniqueGuids ((delete_customer g db).2) := by
  unfold UniqueGuids at h ⊢
  rw [delete_customer_snd]
  exact List.Nodup.sublist
    (List.Sublist.map Customer.guid (List.filter_sublist db)) h

theorem applyOp_preserves_unique (op : Op) (db : List Customer)
    (h : UniqueGuids db) : UniqueGuids (applyOp op db) := by
  cases op with
  | list => exact h
  | create c => exact create_preserves_unique c db h
  | readOne g => exact h
  | update c => exact update_preserves_unique c db h
  | delete g => exact delete_preserves_unique g db h

theorem applyOps_preserve_unique (ops : List Op) (db : List Customer)
    (h : UniqueGuids db) : UniqueGuids (applyOps ops db) := by
  induction ops generalizing db with
  | nil => exact h
  | cons op rest ih => exact ih _ (applyOp_preserves_unique op db h)

/-! ## Sample records, for exercising the handlers on concrete stores -/

/-- A sample record with guid `"a"`. -/
def janeA : Customer := ⟨"a", "Jane", "Doe", "jane", "addr1"⟩

/-- A sample record with guid `"b"`. -/
def johnB : Customer := ⟨"b", "John", "Roe", "john", "addr2"⟩

/-- A replacement payload carrying the same guid `"a"` as `janeA` but
different values in every other field. -/
def newA : Customer := ⟨"a", "New", "Name", "new", "addr3"⟩

/-! ## Claim theorems -/

/-- C1: starting from any store in which all guid values are unique, each
of the five operations (list, create, read-one, update, delete) leaves the
store with all guid values unique, and hence every sequence of operations
starting from a unique-guid store keeps the guids unique. -/
theorem all_ops_preserve_unique_guids :
    (∀ (op : Op) (db : List Customer), UniqueGuids db →
      UniqueGuids (applyOp op db)) ∧
    (∀ (ops : List Op) (db : List Customer), UniqueGuids db →
      UniqueGuids (applyOps ops db)) :=
  ⟨applyOp_preserves_unique, applyOps_preserve_unique⟩

/-- Witness for C1 at a concrete store and operation sequence. -/
theorem all_ops_preserve_unique_guids_witness :
    UniqueGuids [janeA] ∧
    UniqueGuids (applyOps [Op.create johnB, Op.update newA, Op.delete "b"]
      [janeA]) :=
  ⟨by decide, all_ops_preserve_unique_guids.2 _ [janeA] (by decide)⟩

/-- C2: when some record already carries the candidate's guid, create
signals conflict (`BAD_REQUEST`) and leaves the store exactly unchanged —
and repeating that create any number of times never mutates the store;
when no record carries the guid, create appends the candidate at the end
and signals created. -/
theorem create_customer_spec (new_customer : Customer) (db : List Customer) :
    ((∃ c ∈ db, c.guid = new_customer.guid) →
      create_customer new_customer db = (StatusCode.BAD_REQUEST, db) ∧
      ∀ n : Nat, (fun d => (create_customer new_customer d).2)^[n] db = db) ∧
    ((∀ c ∈ db, c.guid ≠ new_customer.guid) →
      create_customer new_customer db =
        (StatusCode.CREATED, db ++ [new_customer])) := by
  refine ⟨fun hp => ⟨create_customer_of_present _ _ hp, fun n => ?_⟩,
    create_customer_of_absent _ _⟩
  induction n with
  | zero => rfl
  | succ n ih =>
      simp only [Function.iterate_succ_apply,
        create_customer_of_present _ _ hp]
      exact ih

/-- Witness for C2: re-creating guid `"a"` over an occupied store conflicts
and leaves the store as it was. -/
theorem create_customer_spec_witness :
    (∃ c ∈ [janeA], c.guid = newA.guid) ∧
    create_customer newA [janeA] = (StatusCode.BAD_REQUEST, [janeA]) :=
  ⟨by decide, ((create_customer_spec newA [janeA]).1 (by decide)).1⟩

/-- C3: delete leaves no record with the requested guid behind while
keeping every other record, the survivors stay in their original relative
order, a store containing the guid yields the deleted signal
(`NO_CONTENT`), and a store without it yields not-found with the store
exactly unchanged. -/
theorem delete_customer_spec (g : String) (db : List Customer) :
    (∀ c ∈ (delete_customer g db).2, c.guid ≠ g) ∧
    (∀ c ∈ db, c.guid ≠ g → c ∈ (delete_customer g db).2) ∧
    (delete_customer g db).2.Sublist db ∧
    ((∃ c ∈ db, c.guid = g) →
      (delete_customer g db).1 = StatusCode.NO_CONTENT) ∧
    ((∀ c ∈ db, c.guid ≠ g) →
      delete_customer g db = (StatusCode.NOT_FOUND, db)) := by
  refine ⟨?_, ?_, ?_, delete_customer_of_present g db,
    delete_customer_of_absent g db⟩
  · intro c hc
    rw [delete_customer_snd] at hc
    simpa using List.of_mem_filter hc
  · intro c hc hne
    rw [delete_customer_snd]
    exact List.mem_filter.mpr ⟨hc, by simpa using hne⟩
  · rw [delete_customer_snd]
    exact List.filter_sublist db

/-- Witness for C3: deleting guid `"a"` from a two-record store signals
deleted. -/
theorem delete_customer_spec_witness :
    (∃ c ∈ [janeA, johnB], c.guid = "a") ∧
    (delete_customer "a" [janeA, johnB]).1 = StatusCode.NO_CONTENT :=
  ⟨by decide, (delete_customer_spec "a" [janeA, johnB]).2.2.2.1 (by decide)⟩

/-- C4: when the store splits as a clean prefix (no guid match), a first
matching record, and a suffix, update replaces exactly that first match in
place with the full replacement payload, signals updated (`OK`), and a
subsequent read-one of that guid returns exactly the new payload; when no
record matches, update signals not-found and leaves the store unchanged. -/
theorem update_customer_spec (u : Customer) (db : List Customer) :
    (∀ l₁ c l₂, db = l₁ ++ c :: l₂ → (∀ x ∈ l₁, x.guid ≠ u.guid) →
      c.guid = u.guid →
      update_customer u db = (StatusCode.OK, l₁ ++ u :: l₂) ∧
      (get_customer u.guid (update_customer u db).2).1 = some u) ∧
    ((∀ c ∈ db, c.guid ≠ u.guid) →
      update_customer u db = (StatusCode.NOT_FOUND, db)) := by
  refine ⟨?_, update_customer_of_absent u db⟩
  intro l₁ c l₂ hdb h₁ h₂
  subst hdb
  have hupd := update_customer_of_first u l₁ l₂ c h₁ h₂
  refine ⟨hupd, ?_⟩
  rw [hupd]
  simp only [get_customer]
  exact find_customer_append_of_first u.guid l₁ l₂ u h₁ rfl

/-- Witness for C4: replacing the record with guid `"a"` at the head of a
two-record store, then reading guid `"a"`, returns the new payload. -/
theorem update_customer_spec_witness :
    update_customer newA [janeA, johnB] =
      (StatusCode.OK, [] ++ newA :: [johnB]) ∧
    (get_customer newA.guid (update_customer newA [janeA, johnB]).2).1 =
      some newA :=
  (update_customer_spec newA [janeA, johnB]).1 [] janeA [johnB] rfl
    (by decide) (by decide)

/-- C5: list always succeeds and hands back every record in insertion
order without touching the store, and the result it handed back is a copy
fixed at call time: after any further operation the store may differ, yet
the previously returned result still equals the store as it was. -/
theorem list_customers_spec (db : List Customer) (op : Op)
    (r : List Customer) (hr : r = (list_customers db).1) :
    (list_customers db).1 = db ∧ (list_customers db).2 = db ∧
    r = db ∧ (list_customers (applyOp op db)).1 = applyOp op db :=
  ⟨rfl, rfl, hr, rfl⟩

/-- Witness for C5: a list result taken before a create still equals the
old store. -/
theorem list_customers_spec_witness :
    [janeA] = (list_customers [janeA]).1 ∧
    ((list_customers [janeA]).1 = [janeA] ∧
      (list_customers [janeA]).2 = [janeA] ∧
      [janeA] = [janeA] ∧
      (list_customers (applyOp (Op.create johnB) [janeA])).1 =
        applyOp (Op.create johnB) [janeA]) :=
  ⟨rfl, list_customers_spec [janeA] (Op.create johnB) [janeA] rfl⟩

/-- C6: starting from a unique-guid store that does not contain the
record's guid, create followed immediately by read-one of that guid
returns a record equal to the created one in all five fields. -/
theorem create_then_read_roundtrip (db : List Customer) (r : Customer)
    (h₁ : UniqueGuids db) (h₂ : ∀ c ∈ db, c.guid ≠ r.guid) :
    (get_customer r.guid (create_customer r db).2).1 = some r := by
  rw [create_customer_of_absent r db h₂]
  simp only [get_customer]
  exact find_customer_append_of_first r.guid db [] r h₂ rfl

/-- Witness for C6: creating guid `"b"` over a store holding guid `"a"`
and reading it back returns the created record. -/
theorem create_then_read_roundtrip_witness :
    UniqueGuids [janeA] ∧ (∀ c ∈ [janeA], c.guid ≠ johnB.guid) ∧
    (get_customer johnB.guid (create_customer johnB [janeA]).2).1 =
      some johnB :=
  ⟨by decide, by decide,
    create_then_read_roundtrip [janeA] johnB (by decide) (by decide)⟩

/-- C7: when the snapshot file opens and parses as a sequence of records,
the store starts as exactly that sequence in that order; when the file is
absent the store starts empty; when the file opens but does not parse,
initialization panics instead of starting. -/
theorem init_db_spec {α : Type} (file : Except IoError α)
    (from_reader : α → Option (List Customer)) :
    (∀ json customers, file = Except.ok json →
      from_reader json = some customers →
      init_db file from_reader = InitResult.started customers) ∧
    (file = Except.error IoError.notFound →
      init_db file from_reader = InitResult.started []) ∧
    (∀ json, file = Except.ok json → from_reader json = none →
      init_db file from_reader = InitResult.panicked) := by
  refine ⟨?_, ?_, ?_⟩
  · intro json customers hf hp
    subst hf
    simp [init_db, hp]
  · intro hf
    subst hf
    rfl
  · intro json hf hp
    subst hf
    simp [init_db, hp]

/-- Witness for C7: a snapshot that parses to one record starts the store
with exactly that record. -/
theorem init_db_spec_witness :
    (Except.ok 0 : Except IoError Nat) = Except.ok 0 ∧
    (fun _ : Nat => some [janeA]) 0 = some [janeA] ∧
    init_db (Except.ok 0) (fun _ : Nat => some [janeA]) =
      InitResult.started [janeA] :=
  ⟨rfl, rfl,
    (init_db_spec (Except.ok 0) (fun _ : Nat => some [janeA])).1 0 [janeA]
      rfl rfl⟩

/-- C8: the update route's matching depends only on the guid inside the
body record; for any two path segments the route produces identical
outcomes, equal to running the handler on the body alone. -/
theorem route_update_ignores_path (p₁ p₂ : String) (u : Customer)
    (db : List Customer) :
    route_update_customer p₁ u db = route_update_customer p₂ u db ∧
    route_update_customer p₁ u db = update_customer u db :=
  ⟨rfl, rfl⟩

/-- C9: every failure to open the snapshot file, of any kind including a
permission denial, starts the store empty; only a file that opens but
fails to parse makes initialization panic. -/
theorem init_db_open_error_spec {α : Type}
    (from_reader : α → Option (List Customer)) :
    (∀ e : IoError, init_db (Except.error e) from_reader =
      InitResult.started []) ∧
    (∀ json, from_reader json = none →
      init_db (Except.ok json) from_reader = InitResult.panicked) := by
  refine ⟨fun e => rfl, fun json hp => ?_⟩
  simp [init_db, hp]

/-- Witness for C9: a permission-denied open starts the store empty, and
an opened but unparseable file panics. -/
theorem init_db_open_error_spec_witness :
    init_db (Except.error IoError.permissionDenied)
      (fun _ : Nat => some []) = InitResult.started [] ∧
    ((fun _ : Nat => (none : Option (List Customer))) 0 = none ∧
      init_db (Except.ok 0)
        (fun _ : Nat => (none : Option (List Customer))) =
        InitResult.panicked) :=
  ⟨(init_db_open_error_spec (fun _ : Nat => some [])).1
      IoError.permissionDenied,
    rfl,
    (init_db_open_error_spec
      (fun _ : Nat => (none : Option (List Customer)))).2 0 rfl⟩

/-- C10: list and read-one leave the store contents and order exactly as
they were, whether or not read-one finds a match. -/
theorem read_ops_do_not_mutate (db : List Customer) (g : String) :
    (list_customers db).2 = db ∧ (get_customer g db).2 = db ∧
    applyOp Op.list db = db ∧ applyOp (Op.readOne g) db = db :=
  ⟨rfl, rfl, rfl, rfl⟩
